import Mathlib

/-!
Verification of the syndicagent synchronization-and-reporting pipeline.

The Python sources are shallowly embedded: JSON-like dynamic values become
the inductive type `Json`, dict-manipulating functions become functions over
association lists or `Json` chains, effectful cache writes become explicit
lists of `CacheOp` events, and fallible code returns `Except`.  External
collaborators (the network cache backend, the HTTP source, the renderer and
the mailer) are passed in as explicit oracle arguments describing the one
answer they give during the modelled call.
-/

/-- Dynamic JSON-like values.  Arrays and objects are encoded as cons
chains inside the same inductive (`jnil`/`jcons` for lists, `onil`/`ocons`
for string-keyed dicts) so that every traversal below is a plain structural
recursion that the kernel can evaluate. -/
inductive Json where
  | null
  | bool (b : Bool)
  | num (n : Int)
  | str (s : String)
  | jnil
  | jcons (hd tl : Json)
  | onil
  | ocons (k : String) (v tl : Json)
  deriving DecidableEq, Repr

/-- Build an object chain from an association list. -/
def mkObj : List (String × Json) → Json
  | [] => .onil
  | p :: tl => .ocons p.1 p.2 (mkObj tl)

/-- Build an array chain from a list. -/
def mkArr : List Json → Json
  | [] => .jnil
  | x :: tl => .jcons x (mkArr tl)

/-- Elements of an array chain. -/
def jitems : Json → List Json
  | .jcons hd tl => hd :: jitems tl
  | _ => []

/-- Entries of an object chain. -/
def jfields : Json → List (String × Json)
  | .ocons k v tl => (k, v) :: jfields tl
  | _ => []

/-- First value stored under a key in an object chain (dict lookup). -/
def jlookup (k : String) : Json → Option Json
  | .ocons k2 v tl => if k2 = k then some v else jlookup k tl
  | _ => none

/-- Whether an object chain has a key (`k in d` for a Python dict). -/
def jhasKey (k : String) (j : Json) : Bool := (jlookup k j).isSome

/-- A raw or processed record: a Python dict with string keys. -/
abbrev Record := List (String × Json)

/-- Dict lookup on a record (`d[k]` / `d.get(k)`). -/
def rawLookup (k : String) : Record → Option Json
  | [] => none
  | (k2, v) :: tl => if k2 = k then some v else rawLookup k tl

/-- Python `d.get(k, default)`. -/
def rawGetD (r : Record) (k : String) (d : Json) : Json := (rawLookup k r).getD d

/-- Python `d.get(k)` (default `None`). -/
def rawGet (r : Record) (k : String) : Json := rawGetD r k .null

/-- Python truthiness of a value (`if x:`). -/
def pyTruthy : Json → Bool
  | .null => false
  | .bool b => b
  | .num n => n ≠ 0
  | .str s => s ≠ ""
  | .jnil => false
  | .jcons _ _ => true
  | .onil => false
  | .ocons _ _ _ => true

/-- Code-point-wise `≤` on char lists, the order Python uses to sort
dict keys in `json.dumps(..., sort_keys=True)`. -/
def charListLe : List Char → List Char → Bool
  | [], _ => true
  | _ :: _, [] => false
  | a :: as, b :: bs =>
      if a.toNat < b.toNat then true
      else if b.toNat < a.toNat then false
      else charListLe as bs

/-- Lexicographic code-point `≤` on strings. -/
def strLe (a b : String) : Bool := charListLe a.data b.data

/-- JSON string escaping as done by `json.dumps` for the characters the
embedded records can contain. -/
def quoteJson (s : String) : String :=
  "\"" ++ String.join (s.data.map fun c =>
    if c = '"' then "\\\"" else if c = '\\' then "\\\\"
    else if c = '\n' then "\\n" else if c = '\t' then "\\t"
    else if c = '\r' then "\\r" else String.singleton c) ++ "\""

/-- Serialization position: a whole value, the tail of an array, or the
tail of an object. -/
inductive DumpMode where
  | top
  | arrTail
  | objTail
  deriving DecidableEq, Repr

/-- Worker for `json.dumps` with the default separators `, ` and `: `.
Keys are emitted in the order they sit in the chain; `dumpsSorted` below
pre-sorts the chain to model `sort_keys=True`. -/
def dumpsAux : DumpMode → Json → String
  | .top, .null => "null"
  | .top, .bool true => "true"
  | .top, .bool false => "false"
  | .top, .num n => toString n
  | .top, .str s => quoteJson s
  | .top, .jnil => "[]"
  | .top, .jcons hd tl => "[" ++ dumpsAux .top hd ++ dumpsAux .arrTail tl ++ "]"
  | .top, .onil => "\x7b\x7d"
  | .top, .ocons k v tl =>
      "\x7b" ++ quoteJson k ++ ": " ++ dumpsAux .top v ++ dumpsAux .objTail tl ++ "\x7d"
  | .arrTail, .jcons hd tl => ", " ++ dumpsAux .top hd ++ dumpsAux .arrTail tl
  | .arrTail, _ => ""
  | .objTail, .ocons k v tl => ", " ++ quoteJson k ++ ": " ++ dumpsAux .top v ++ dumpsAux .objTail tl
  | .objTail, _ => ""

/-- Python `json.dumps(value)` (insertion key order). -/
def dumps (j : Json) : String := dumpsAux .top j

/-- Insert an entry into a key-sorted object chain, keeping it sorted. -/
def insertField (k : String) (v : Json) : Json → Json
  | .ocons k2 v2 tl =>
      if strLe k k2 then .ocons k v (.ocons k2 v2 tl) else .ocons k2 v2 (insertField k v tl)
  | other => .ocons k v other

/-- Recursively sort every object chain by key, leaving arrays in order:
the value shape whose serialization `json.dumps(..., sort_keys=True)`
prints. -/
def sortJson : Json → Json
  | .jcons hd tl => .jcons (sortJson hd) (sortJson tl)
  | .ocons k v tl => insertField k (sortJson v) (sortJson tl)
  | j => j

/-- Python `json.dumps(value, sort_keys=True)`: the canonical (stable key
order) serialization used for content hashing. -/
def dumpsSorted (j : Json) : String := dumps (sortJson j)

/-- Worker for Python `repr` of a JSON-like value. -/
def pyReprAux : DumpMode → Json → String
  | .top, .null => "None"
  | .top, .bool true => "True"
  | .top, .bool false => "False"
  | .top, .num n => toString n
  | .top, .str s => "\x27" ++ s ++ "\x27"
  | .top, .jnil => "[]"
  | .top, .jcons hd tl => "[" ++ pyReprAux .top hd ++ pyReprAux .arrTail tl ++ "]"
  | .top, .onil => "\x7b\x7d"
  | .top, .ocons k v tl =>
      "\x7b\x27" ++ k ++ "\x27: " ++ pyReprAux .top v ++ pyReprAux .objTail tl ++ "\x7d"
  | .arrTail, .jcons hd tl => ", " ++ pyReprAux .top hd ++ pyReprAux .arrTail tl
  | .arrTail, _ => ""
  | .objTail, .ocons k v tl => ", \x27" ++ k ++ "\x27: " ++ pyReprAux .top v ++ pyReprAux .objTail tl
  | .objTail, _ => ""

/-- Python `str(value)` as used by f-string interpolation: strings pass
through unquoted, every other value prints as its `repr`. -/
def pyStr : Json → String
  | .str s => s
  | j => pyReprAux .top j

/-- Deterministic stand-in for the builtin string hash used by
`hash(json.dumps(...))`.  CPython's value is process-seeded but fixed
within a process; only that per-process determinism (equal strings hash
equal) carries over to the properties proved here. -/
def pyHash (s : String) : Int :=
  Int.ofNat (s.data.foldl (fun h c => (h * 31 + c.toNat) % (2 ^ 64)) 5381)

example : dumpsSorted (mkObj [("b", .num 2), ("a", .num 1)])
    = dumpsSorted (mkObj [("a", .num 1), ("b", .num 2)]) := by decide

example : dumpsSorted (mkObj [("b", .num 2), ("a", .str "x")])
    = "\x7b\"a\": \"x\", \"b\": 2\x7d" := by rfl

example : pyStr (.str "hi") = "hi" := by rfl

example : pyStr (mkObj [("a", .str "b")]) = "\x7b\x27a\x27: \x27b\x27\x7d" := by rfl

/-- Prefix test on char lists. -/
def listIsPrefix : List Char → List Char → Bool
  | [], _ => true
  | _ :: _, [] => false
  | a :: as, b :: bs => a = b && listIsPrefix as bs

/-- Substring search worker. -/
def strContainsAux (needle : List Char) : List Char → Bool
  | [] => needle.isEmpty
  | c :: tl => listIsPrefix needle (c :: tl) || strContainsAux needle tl

/-- Python substring membership `needle in hay`. -/
def strContains (hay needle : String) : Bool := strContainsAux needle.data hay.data

/-- One write/delete issued against the cache wrapper; `ex` is the TTL
argument when one was passed. -/
inductive CacheOp where
  | set (key : String) (value : Json) (ex : Option Nat)
  | del (key : String)
  deriving DecidableEq, Repr

/-- Key an operation touches. -/
def CacheOp.key : CacheOp → String
  | .set k _ _ => k
  | .del k => k

/-- Python type name of a value, as it appears in TypeError messages. -/
def pyTypeName : Json → String
  | .null => "NoneType"
  | .bool _ => "bool"
  | .num _ => "int"
  | .str _ => "str"
  | .jnil => "list"
  | .jcons _ _ => "list"
  | .onil => "dict"
  | .ocons _ _ _ => "dict"

/-- Whether a value can be a dict key (Python hashability: lists and
dicts cannot). -/
def hashable : Json → Bool
  | .jnil => false
  | .jcons _ _ => false
  | .onil => false
  | .ocons _ _ _ => false
  | _ => true

namespace DataProcessor

/-- `self.cache_ttl` set in `DataProcessor.__init__`. -/
def cache_ttl : Nat := 3600

/-- `DataProcessor._process_field_data`. -/
def process_field_data (raw : Record) : Record :=
  [("field_id", rawGet raw "id"),
   ("field_name", rawGet raw "name"),
   ("area", rawGet raw "area"),
   ("farm_id", rawGet raw "farm_id"),
   ("description", rawGet raw "description"),
   ("cropping_method", rawGet raw "cropping_method"),
   ("crops", rawGetD raw "crops" .jnil),
   ("chemical_cost", rawGet raw "chemical_cost"),
   ("fertilizer_cost", rawGet raw "fertilizer_cost"),
   ("seed_cost", rawGet raw "seed_cost"),
   ("summary", .str ("Field: " ++ pyStr (rawGetD raw "name" (.str "Unknown"))
      ++ " - Area: " ++ pyStr (rawGetD raw "area" (.str "N/A"))
      ++ " - Farm: " ++ pyStr (rawGetD raw "farm_id" (.str "N/A"))))]

/-- `DataProcessor._process_crop_data`. -/
def process_crop_data (raw : Record) : Record :=
  [("crop_id", rawGet raw "id"),
   ("crop_type", rawGet raw "type"),
   ("variety", rawGet raw "variety"),
   ("field_id", rawGet raw "field_id"),
   ("crop_grade", rawGet raw "crop_grade"),
   ("crop_use", rawGet raw "crop_use"),
   ("crop_blend", rawGet raw "crop_blend"),
   ("planting_date", rawGet raw "planting_date"),
   ("harvest_date", rawGet raw "harvest_date"),
   ("summary", .str ("Crop: " ++ pyStr (rawGetD raw "type" (.str "Unknown"))
      ++ " - Variety: " ++ pyStr (rawGetD raw "variety" (.str "N/A"))
      ++ " - Field: " ++ pyStr (rawGetD raw "field_id" (.str "N/A"))))]

/-- `DataProcessor._process_activity_data`. -/
def process_activity_data (raw : Record) : Record :=
  [("activity_id", rawGet raw "id"),
   ("title", rawGet raw "title"),
   ("activity_type", rawGet raw "activity_type"),
   ("activity_category", rawGet raw "activity_category"),
   ("approved", rawGet raw "approved"),
   ("completed", rawGet raw "completed"),
   ("area", rawGet raw "area"),
   ("total_cost", rawGet raw "total_cost"),
   ("chemical_cost", rawGet raw "chemical_cost"),
   ("fertilizer_cost", rawGet raw "fertilizer_cost"),
   ("seed_cost", rawGet raw "seed_cost"),
   ("due_at", rawGet raw "due_at"),
   ("completed_at", rawGet raw "completed_at"),
   ("company_name", rawGet raw "company_name"),
   ("author_user_name", rawGet raw "author_user_name"),
   ("activity_fields", rawGetD raw "activity_fields" .jnil),
   ("activity_inputs", rawGetD raw "activity_inputs" .jnil),
   ("summary", .str ("Activity: " ++ pyStr (rawGetD raw "title" (.str "Unknown"))
      ++ " - Type: " ++ pyStr (rawGetD raw "activity_type" (.str "N/A"))
      ++ " - Status: " ++ (if pyTruthy (rawGet raw "completed") then "Completed" else "Pending")))]

/-- `DataProcessor._process_generic_data`: wraps the raw dict verbatim. -/
def process_generic_data (raw : Record) : Record :=
  [("id", rawGet raw "id"),
   ("data", mkObj raw),
   ("summary", .str ("Generic data with " ++ toString raw.length ++ " fields"))]

/-- `DataProcessor._process_company_data`. -/
def process_company_data (raw : Record) : Record :=
  [("company_id", rawGet raw "id"),
   ("company_name", rawGet raw "name"),
   ("company_type", rawGet raw "company_type"),
   ("business_identifier", rawGet raw "business_identifier"),
   ("contact_email", rawGet raw "contact_email"),
   ("contact_name", rawGet raw "contact_name"),
   ("description", rawGet raw "description"),
   ("physical_location", rawGet raw "physical_location"),
   ("summary", .str ("Company: " ++ pyStr (rawGetD raw "name" (.str "Unknown"))
      ++ " - Type: " ++ pyStr (rawGetD raw "company_type" (.str "N/A"))))]

/-- `DataProcessor._process_farm_data`. -/
def process_farm_data (raw : Record) : Record :=
  [("farm_id", rawGet raw "id"),
   ("farm_name", rawGet raw "name"),
   ("company_id", rawGet raw "company_id"),
   ("description", rawGet raw "description"),
   ("location", rawGet raw "location"),
   ("reporting_region", rawGet raw "reporting_region"),
   ("summary", .str ("Farm: " ++ pyStr (rawGetD raw "name" (.str "Unknown"))
      ++ " - Region: " ++ pyStr (rawGetD raw "reporting_region" (.str "N/A"))))]

/-- `DataProcessor._process_season_data`. -/
def process_season_data (raw : Record) : Record :=
  [("season_id", rawGet raw "id"),
   ("season_name", rawGet raw "name"),
   ("company_id", rawGet raw "company_id"),
   ("approved", rawGet raw "approved"),
   ("season_start_date", rawGet raw "season_start_date"),
   ("season_end_date", rawGet raw "season_end_date"),
   ("summary", .str ("Season: " ++ pyStr (rawGetD raw "name" (.str "Unknown"))
      ++ " - Status: " ++ (if pyTruthy (rawGet raw "approved") then "Approved" else "Draft")))]

/-- The processed-record dict built by `process_agworld_data`. -/
structure Processed where
  data_type : String
  processed_at : String
  source : String
  raw_data_hash : Int
  processed_data : Record
  deriving DecidableEq, Repr

/-- The processed record as the JSON dict the code caches. -/
def processedToJson (p : Processed) : Json :=
  mkObj [("data_type", .str p.data_type),
         ("processed_at", .str p.processed_at),
         ("source", .str p.source),
         ("raw_data_hash", .num p.raw_data_hash),
         ("processed_data", mkObj p.processed_data)]

/-- The cache key `processed:<type>:<hash>` used by `process_agworld_data`
and `get_cached_data`. -/
def processed_cache_key (data_type : String) (h : Int) : String :=
  "processed:" ++ data_type ++ ":" ++ toString h

/-- `DataProcessor.process_agworld_data`: builds the processed record
(`raw_data_hash` is the builtin hash of the sorted-key serialization,
`processed_data` comes from the per-domain dispatch with the generic
fallback) and caches it under `processed:<type>:<hash>`; returned as the
record together with the cache write it issues.  `now` stands for
`datetime.utcnow().isoformat()`. -/
def process_agworld_data (now : String) (raw : Record) (data_type : String) :
    Processed × CacheOp :=
  let h := pyHash (dumpsSorted (mkObj raw))
  let pd : Record :=
    if data_type = "field" then process_field_data raw
    else if data_type = "crop" then process_crop_data raw
    else if data_type = "activity" then process_activity_data raw
    else if data_type = "company" then process_company_data raw
    else if data_type = "farm" then process_farm_data raw
    else if data_type = "season" then process_season_data raw
    else process_generic_data raw
  let p : Processed :=
    { data_type := data_type, processed_at := now, source := "agworld",
      raw_data_hash := h, processed_data := pd }
  (p, .set (processed_cache_key data_type h) (processedToJson p) (some cache_ttl))

/-- The dict built by `aggregate_data`. -/
structure Aggregate where
  total_records : Nat
  data_types : List (Json × Nat)
  summaries : List Json
  aggregated_at : String
  deriving DecidableEq, Repr

/-- The `data_types` bucket update: first occurrence of a type is appended
with count 0 and then incremented; later ones increment in place. -/
def bump : List (Json × Nat) → Json → List (Json × Nat)
  | [], dt => [(dt, 1)]
  | (k, c) :: tl, dt => if k = dt then (k, c + 1) :: tl else (k, c) :: bump tl dt

/-- The `"summary" in data["processed_data"]` test of the aggregation
loop plus the indexing that follows it, raising `TypeError` exactly where
CPython does: a non-container value at the membership test, and
string/list indexing by `"summary"` when the membership test passed.
Returns the summary value to append, when there is one. -/
def summary_action : Json → Except String (Option Json)
  | .onil => .ok none
  | .ocons k v tl => .ok (jlookup "summary" (.ocons k v tl))
  | .jnil => .ok none
  | .jcons hd tl =>
      if (jitems (.jcons hd tl)).contains (.str "summary") then
        .error "TypeError: list indices must be integers or slices, not str"
      else .ok none
  | .str s =>
      if strContains s "summary" then
        .error "TypeError: string indices must be integers"
      else .ok none
  | .null => .error ("TypeError: argument of type \x27NoneType\x27 is not iterable")
  | .bool _ => .error ("TypeError: argument of type \x27bool\x27 is not iterable")
  | .num _ => .error ("TypeError: argument of type \x27int\x27 is not iterable")

/-- Whether the summary test gets through without raising. -/
def summary_ok (pd : Json) : Bool :=
  match summary_action pd with
  | .ok _ => true
  | .error _ => false

/-- One iteration of the `aggregate_data` loop.  An unhashable
`data_type` value raises at the bucket-membership test; the summary
handling is `summary_action`. -/
def aggregate_step (agg : Aggregate) (data : Record) : Except String Aggregate :=
  let dt := rawGetD data "data_type" (.str "unknown")
  if hashable dt then
    let counts := bump agg.data_types dt
    match rawLookup "processed_data" data with
    | none => .ok { agg with data_types := counts }
    | some pd =>
        match summary_action pd with
        | .error e => .error e
        | .ok none => .ok { agg with data_types := counts }
        | .ok (some s) =>
            .ok { agg with data_types := counts, summaries := agg.summaries ++ [s] }
  else .error ("TypeError: unhashable type: \x27" ++ pyTypeName dt ++ "\x27")

/-- `DataProcessor.aggregate_data`: `total_records` is the input length,
then each record bumps one `data_types` bucket (key
`data.get("data_type", "unknown")`) and contributes
`data["processed_data"]["summary"]` when present.  `now` stands for
`datetime.utcnow().isoformat()`. -/
def aggregate_data (now : String) (data_list : List Record) : Except String Aggregate :=
  List.foldlM aggregate_step
    { total_records := data_list.length, data_types := [], summaries := [],
      aggregated_at := now } data_list

end DataProcessor

example : DataProcessor.aggregate_data "T" [] =
    .ok { total_records := 0, data_types := [], summaries := [], aggregated_at := "T" } := by rfl

example : DataProcessor.aggregate_data "T"
      [[("data_type", .str "field"), ("processed_data", mkObj [("summary", .str "F1")])],
       [("data_type", .str "crop")]] =
    .ok { total_records := 2, data_types := [(.str "field", 1), (.str "crop", 1)],
          summaries := [.str "F1"], aggregated_at := "T" } := by rfl

example : DataProcessor.aggregate_data "T" [[("processed_data", .num 5)]] =
    .error "TypeError: argument of type \x27int\x27 is not iterable" := by rfl

namespace ReportManager

/-- External collaborators of `generate_report` during one call: the PDF
generator outcome (path or exception), whether the notifier module was
importable, and the `send_notification` outcome (returned flag or
exception). -/
structure ReportEnv where
  render : Except String String
  notifier_available : Bool
  send : Except String Bool

/-- The result dict of `generate_report`. -/
structure ReportResult where
  success : Bool
  pdf_path : Option String
  email_sent : Bool
  errors : List String
  deriving DecidableEq, Repr

/-- `ReportManager.generate_report`: renders when `format_type` is `pdf`
or `both`, delivers when `format_type` is `email` or `both` and recipients
were given; each stage appends to `errors` on failure instead of aborting,
and `success` is set at the end from the error list being empty. -/
def generate_report (env : ReportEnv) (format_type : String) (has_recipients : Bool) :
    ReportResult :=
  let r0 : ReportResult :=
    { success := false, pdf_path := none, email_sent := false, errors := [] }
  let r1 :=
    if format_type = "pdf" ∨ format_type = "both" then
      match env.render with
      | .ok p => { r0 with pdf_path := some p }
      | .error e => { r0 with errors := r0.errors ++ ["PDF generation failed: " ++ e] }
    else r0
  let r2 :=
    if (format_type = "email" ∨ format_type = "both") ∧ has_recipients then
      if env.notifier_available then
        match env.send with
        | .ok true => { r1 with email_sent := true }
        | .ok false =>
            { r1 with email_sent := false, errors := r1.errors ++ ["Email sending failed"] }
        | .error e => { r1 with errors := r1.errors ++ ["Email sending failed: " ++ e] }
      else { r1 with errors := r1.errors ++ ["Email notifier not available"] }
    else r1
  { r2 with success := r2.errors.isEmpty }

/-- `ReportManager._create_summary_content`: header, total count, the
per-domain breakdown, then at most the first 10 summaries (numbered from
1) and a `... and K more records` marker when more were aggregated. -/
def create_summary_content (agg : DataProcessor.Aggregate) : String :=
  let content_lines : List String :=
    ["Data Summary Report",
     "Generated: " ++ agg.aggregated_at,
     "",
     "Total Records Processed: " ++ toString agg.total_records,
     ""]
  let dt_lines : List String :=
    if agg.data_types.isEmpty then []
    else ("Data Types:" ::
      agg.data_types.map (fun p => "  - " ++ pyStr p.1 ++ ": " ++ toString p.2 ++ " records"))
      ++ [""]
  let summary_lines : List String :=
    if agg.summaries.isEmpty then []
    else ("Record Summaries:" ::
      (agg.summaries.take 10).enum.map
        (fun p => "  " ++ toString (p.1 + 1) ++ ". " ++ pyStr p.2))
      ++ (if agg.summaries.length > 10 then
            ["  ... and " ++ toString (agg.summaries.length - 10) ++ " more records"]
          else [])
  String.intercalate "\n" (content_lines ++ dt_lines ++ summary_lines)

end ReportManager

namespace RedisClient

/-- The wrapper's mutable state: the use-the-network flag and the
process-local fallback dict. -/
structure RState where
  use_redis : Bool
  memory_cache : List (String × Json)
  deriving DecidableEq, Repr

/-- Python dict assignment `d[k] = v`: replace in place or append. -/
def minsert (k : String) (v : Json) : List (String × Json) → List (String × Json)
  | [] => [(k, v)]
  | (k2, v2) :: tl => if k2 = k then (k2, v) :: tl else (k2, v2) :: minsert k v tl

/-- Python `isinstance(value, (dict, list))`. -/
def isContainer : Json → Bool
  | .jnil => true
  | .jcons _ _ => true
  | .onil => true
  | .ocons _ _ _ => true
  | _ => false

/-- `RedisClient.set`.  The network backend's one answer is the `backend`
oracle (its returned flag, or the transport exception the wrapper
catches).  In redis mode a dict/list value is first serialized; on a
caught error the wrapper clears `use_redis` and falls through to the
in-memory write (which stores the already-serialized string), where the
`ex` TTL argument is ignored. -/
def rset (k : String) (v : Json) (backend : Except String Bool) (s : RState) :
    Bool × RState :=
  if s.use_redis then
    match backend with
    | .ok b => (b, s)
    | .error _ =>
        let v2 := if isContainer v then Json.str (dumps v) else v
        (true, { use_redis := false, memory_cache := minsert k v2 s.memory_cache })
  else (true, { s with memory_cache := minsert k v s.memory_cache })

/-- `RedisClient.get`.  The oracle's `ok` answer stands for the value the
network call plus the wrapper's JSON decode and truthiness test produce;
on a caught transport error the wrapper clears `use_redis` and answers
from the in-memory dict. -/
def rget (k : String) (backend : Except String (Option Json)) (s : RState) :
    Option Json × RState :=
  if s.use_redis then
    match backend with
    | .ok r => (r, s)
    | .error _ => (rawLookup k s.memory_cache, { s with use_redis := false })
  else (rawLookup k s.memory_cache, s)

/-- One cache call together with the network backend's answer for it. -/
inductive ROp where
  | opSet (k : String) (v : Json) (backend : Except String Bool)
  | opGet (k : String) (backend : Except String (Option Json))

/-- State after one call. -/
def step (s : RState) : ROp → RState
  | .opSet k v backend => (rset k v backend s).2
  | .opGet k backend => (rget k backend s).2

/-- State after a sequence of calls. -/
def runOps (ops : List ROp) (s : RState) : RState := ops.foldl step s

end RedisClient

namespace AgworldAPIClient

/-- The client's mutable rate-limit state (`self.rate_limit_delay`,
initialized to 1). -/
structure ClientState where
  rate_limit_delay : Nat
  deriving DecidableEq, Repr

/-- The external API's answer to one request: a JSON body, an HTTP error
status (as raised by `raise_for_status`), or a transport error. -/
inductive ApiResp where
  | success (body : Json)
  | httpError (status : Nat) (msg : String)
  | requestError (msg : String)
  deriving DecidableEq, Repr

/-- `AgworldAPIClient._make_request`: returns the JSON body on success;
on an HTTP error it doubles `rate_limit_delay` when the status is 429 and
re-raises; any other failure is re-raised unchanged. -/
def make_request (s : ClientState) (r : ApiResp) : Except String Json × ClientState :=
  match r with
  | .success body => (.ok body, s)
  | .httpError status msg =>
      (.error msg,
       if status = 429 then { rate_limit_delay := s.rate_limit_delay * 2 } else s)
  | .requestError msg => (.error msg, s)

/-- Delay after a sequence of requests. -/
def runRequests (rs : List ApiResp) (s : ClientState) : ClientState :=
  rs.foldl (fun st r => (make_request st r).2) s

/-- `item.get(k)` on a JSON dict (`None` when absent). -/
def jget (j : Json) (k : String) : Json := (jlookup k j).getD .null

/-- `item.get(k, {})` on a JSON dict. -/
def jgetObj (j : Json) (k : String) : Json := (jlookup k j).getD .onil

/-- Python `d[k] = v` on a JSON dict chain. -/
def jinsert (k : String) (v : Json) : Json → Json
  | .ocons k2 v2 tl => if k2 = k then .ocons k2 v tl else .ocons k2 v2 (jinsert k v tl)
  | other => .ocons k v other

/-- Python `d.update(kvs)` on a JSON dict chain. -/
def jupdate (j : Json) (kvs : List (String × Json)) : Json :=
  kvs.foldl (fun acc p => jinsert p.1 p.2 acc) j

/-- The per-item extraction `get_fields` performs on a JSON API `fields`
resource, including the seasonal attributes added when a `season_id`
filter was given. -/
def extract_field (season_id : Option String) (item : Json) : Json :=
  let attrs := jgetObj item "attributes"
  let field_data := mkObj
    [("id", jget item "id"),
     ("name", jget attrs "name"),
     ("area", jget attrs "area"),
     ("farm_id", jget attrs "farm_id"),
     ("description", jget attrs "description"),
     ("cropping_method", jget attrs "cropping_method"),
     ("boundary", jget attrs "boundary"),
     ("created_at", jget attrs "created_at"),
     ("updated_at", jget attrs "updated_at")]
  match season_id with
  | some _ =>
      jupdate field_data
        [("crops", jget attrs "crops"),
         ("chemical_cost", jget attrs "chemical_cost"),
         ("fertilizer_cost", jget attrs "fertilizer_cost"),
         ("seed_cost", jget attrs "seed_cost"),
         ("harvested_area", jget attrs "harvested_area"),
         ("harvested_weight", jget attrs "harvested_weight"),
         ("planting_date", jget attrs "planting_date"),
         ("harvest_date", jget attrs "harvest_date")]
  | none => field_data

/-- The fixed sample returned by `_get_mock_field_data`. -/
def mock_field_data : Json := mkArr
  [mkObj
    [("id", .str "987654"),
     ("name", .str "North Field"),
     ("area", .str "25.5 ha"),
     ("farm_id", .str "987613"),
     ("description", .str "Main production field"),
     ("cropping_method", .str "dryland"),
     ("boundary", .null),
     ("created_at", .str "2024-01-01T00:00:00Z"),
     ("updated_at", .str "2024-01-01T00:00:00Z"),
     ("crops", mkArr
       [mkObj
         [("crop_name", .str "Wheat"),
          ("variety_name", .str "Winter Wheat"),
          ("crop_grade", .str "A"),
          ("crop_use", .str "Grain"),
          ("crop_blend", .str "primary")]]),
     ("chemical_cost", .str "1000 dollar"),
     ("fertilizer_cost", .str "2000 dollar"),
     ("seed_cost", .str "500 dollar"),
     ("planting_date", .str "2024-04-15T00:00:00Z"),
     ("harvest_date", .str "2024-10-30T00:00:00Z")],
   mkObj
    [("id", .str "987655"),
     ("name", .str "South Field"),
     ("area", .str "18.3 ha"),
     ("farm_id", .str "987613"),
     ("description", .str "Secondary field"),
     ("cropping_method", .str "irrigated"),
     ("boundary", .null),
     ("created_at", .str "2024-01-01T00:00:00Z"),
     ("updated_at", .str "2024-01-01T00:00:00Z"),
     ("crops", mkArr
       [mkObj
         [("crop_name", .str "Corn"),
          ("variety_name", .str "Sweet Corn"),
          ("crop_grade", .str "B+"),
          ("crop_use", .str "Feed"),
          ("crop_blend", .str "primary")]]),
     ("chemical_cost", .str "800 dollar"),
     ("fertilizer_cost", .str "1500 dollar"),
     ("seed_cost", .str "400 dollar"),
     ("planting_date", .str "2024-05-01T00:00:00Z"),
     ("harvest_date", .str "2024-11-15T00:00:00Z")]]

/-- `AgworldAPIClient.get_fields`.  `cached` is the raw-cache lookup for
the filter-derived key; `resp` is the remote answer `_make_request`
receives on a miss.  On any fetch failure the inner handler caches and
returns the mock sample (TTL 300) instead of propagating, so the returned
`Except` is always `ok`. -/
def get_fields (s : ClientState) (farm_id season_id : Option String)
    (cached : Option Json) (resp : ApiResp) :
    Except String Json × ClientState × List CacheOp :=
  let cache_key := "agworld:fields:" ++ farm_id.getD "all" ++ ":" ++ season_id.getD "all"
  match cached with
  | some v => (.ok v, s, [])
  | none =>
      let (res, s2) := make_request s resp
      match res with
      | .ok result =>
          let fields_data :=
            mkArr (((jitems (jget result "data")).filter
              (fun item => jget item "type" = Json.str "fields")).map
              (extract_field season_id))
          (.ok fields_data, s2, [.set cache_key fields_data (some 3600)])
      | .error _ =>
          (.ok mock_field_data, s2, [.set cache_key mock_field_data (some 300)])

end AgworldAPIClient

namespace Worker

/-- The message of the `AttributeError` CPython raises at the
`redis_client.setex(...)` call: the `RedisClient` wrapper defines no
`setex` method, so the success path of the poll task always ends in the
exception handler. -/
def attr_err_setex : String :=
  "\x27RedisClient\x27 object has no attribute \x27setex\x27"

/-- The Celery task `poll_field_data` of `app.tasks.worker` (the
`AgworldPoller.poll_field_data` routine differs only in not re-raising).
`fetch` is the outcome of the `agworld_client.get_fields()` call; `now`
stands for `datetime.utcnow().isoformat()`.  Returns the task result (an
`error` outcome models the exception re-raised to the retry policy)
together with the cache writes in program order. -/
def poll_field_data (now : String) (fetch : Except String (List Record)) :
    Except String Json × List CacheOp :=
  let ops0 : List CacheOp :=
    [.set "polling:fields:status" (.str "running") none,
     .set "polling:fields:last_run" (.str now) none]
  match fetch with
  | .error e =>
      let msg := "Field polling failed: " ++ e
      (.error msg,
       ops0 ++ [.set "polling:fields:status" (.str "error") none,
                .set "polling:fields:error" (.str msg) none])
  | .ok field_data =>
      if field_data.isEmpty then
        (.ok (mkObj [("success", .bool false), ("error", .str "No data received")]),
         ops0 ++ [.set "polling:fields:status" (.str "no_data") none])
      else
        let processed_ops :=
          field_data.map (fun f => (DataProcessor.process_agworld_data now f "field").2)
        let msg := "Field polling failed: " ++ attr_err_setex
        (.error msg,
         ops0 ++ processed_ops
              ++ [.set "polling:fields:status" (.str "error") none,
                  .set "polling:fields:error" (.str msg) none])

end Worker

/-- Values written to one status key, in write order. -/
def statusWrites (key : String) (ops : List CacheOp) : List String :=
  ops.filterMap fun op =>
    match op with
    | .set k (.str s) _ => if k = key then some s else none
    | _ => none

/-- The record-dict key under which a record's domain sits, with the
`unknown` default of the aggregation loop. -/
def dtOf (data : Record) : Json := rawGetD data "data_type" (.str "unknown")

/-- A record the aggregation loop gets through without a `TypeError`: its
`data_type` value (if any) is hashable, and its `processed_data` value
(if any) supports the `"summary" in ...` test without string/list
indexing blowing up. -/
def wellFormedRec (data : Record) : Bool :=
  hashable (dtOf data) &&
  (match rawLookup "processed_data" data with
   | none => true
   | some pd => DataProcessor.summary_ok pd)

/-- Count held by one bucket key in a `data_types` association list. -/
def countOf : List (Json × Nat) → Json → Nat
  | [], _ => 0
  | (k, c) :: tl, dt => (if k = dt then c else 0) + countOf tl dt

/-- Sum of all bucket counts in a `data_types` association list. -/
def countsSum : List (Json × Nat) → Nat
  | [] => 0
  | (_, c) :: tl => c + countsSum tl

/-- Eleven processed records, five `field` then six `crop`, each carrying
a summary, as in the spec's aggregation test vector. -/
def elevenRecords : List Record :=
  [[("data_type", Json.str "field"), ("processed_data", mkObj [("summary", Json.str "s1")])],
   [("data_type", Json.str "field"), ("processed_data", mkObj [("summary", Json.str "s2")])],
   [("data_type", Json.str "field"), ("processed_data", mkObj [("summary", Json.str "s3")])],
   [("data_type", Json.str "field"), ("processed_data", mkObj [("summary", Json.str "s4")])],
   [("data_type", Json.str "field"), ("processed_data", mkObj [("summary", Json.str "s5")])],
   [("data_type", Json.str "crop"), ("processed_data", mkObj [("summary", Json.str "s6")])],
   [("data_type", Json.str "crop"), ("processed_data", mkObj [("summary", Json.str "s7")])],
   [("data_type", Json.str "crop"), ("processed_data", mkObj [("summary", Json.str "s8")])],
   [("data_type", Json.str "crop"), ("processed_data", mkObj [("summary", Json.str "s9")])],
   [("data_type", Json.str "crop"), ("processed_data", mkObj [("summary", Json.str "s10")])],
   [("data_type", Json.str "crop"), ("processed_data", mkObj [("summary", Json.str "s11")])]]

/-- C1: two raw records with the same canonical (sorted-key) JSON
serialization get the same `raw_data_hash` from `process_agworld_data`
under any domain tag, and hence the same `processed:<type>:<hash>` cache
key, regardless of processing time. -/
theorem C1_canonical_hash_identity (r1 r2 : Record) (d now1 now2 : String)
    (h : dumpsSorted (mkObj r1) = dumpsSorted (mkObj r2)) :
    (DataProcessor.process_agworld_data now1 r1 d).1.raw_data_hash
      = (DataProcessor.process_agworld_data now2 r2 d).1.raw_data_hash ∧
    ((DataProcessor.process_agworld_data now1 r1 d).2).key
      = ((DataProcessor.process_agworld_data now2 r2 d).2).key := by
  constructor
  · show pyHash (dumpsSorted (mkObj r1)) = pyHash (dumpsSorted (mkObj r2))
    rw [h]
  · show DataProcessor.processed_cache_key d (pyHash (dumpsSorted (mkObj r1)))
      = DataProcessor.processed_cache_key d (pyHash (dumpsSorted (mkObj r2)))
    rw [h]

/-- Witness for C1 at two key-permuted copies of the same record. -/
theorem C1_witness :
    dumpsSorted (mkObj [("a", Json.num 1), ("b", Json.str "x")])
      = dumpsSorted (mkObj [("b", Json.str "x"), ("a", Json.num 1)]) ∧
    ((DataProcessor.process_agworld_data "T1" [("a", Json.num 1), ("b", Json.str "x")] "field").1.raw_data_hash
      = (DataProcessor.process_agworld_data "T2" [("b", Json.str "x"), ("a", Json.num 1)] "field").1.raw_data_hash ∧
     ((DataProcessor.process_agworld_data "T1" [("a", Json.num 1), ("b", Json.str "x")] "field").2).key
      = ((DataProcessor.process_agworld_data "T2" [("b", Json.str "x"), ("a", Json.num 1)] "field").2).key) :=
  ⟨by decide,
   C1_canonical_hash_identity [("a", Json.num 1), ("b", Json.str "x")]
     [("b", Json.str "x"), ("a", Json.num 1)] "field" "T1" "T2" (by decide)⟩

/-- C2: when the source fetch raises, the field poll task re-raises after
writing `status=error` and the error message; the status key sequence is
`running` then `error`, the error key carries the failure message ending
in the exception text, and the processed-batch key
`agworld:fields:latest` is never written. -/
theorem C2_error_path_status (now e : String) :
    (Worker.poll_field_data now (.error e)).1
      = .error ("Field polling failed: " ++ e) ∧
    statusWrites "polling:fields:status" (Worker.poll_field_data now (.error e)).2
      = ["running", "error"] ∧
    (CacheOp.set "polling:fields:error" (.str ("Field polling failed: " ++ e)) none)
      ∈ (Worker.poll_field_data now (.error e)).2 ∧
    (Worker.poll_field_data now (.error e)).2.map CacheOp.key
      = ["polling:fields:status", "polling:fields:last_run",
         "polling:fields:status", "polling:fields:error"] ∧
    "agworld:fields:latest" ∉ (Worker.poll_field_data now (.error e)).2.map CacheOp.key := by
  refine ⟨rfl, rfl, ?_, rfl, ?_⟩
  · simp [Worker.poll_field_data]
  · intro hmem
    rw [show (Worker.poll_field_data now (.error e)).2.map CacheOp.key
      = ["polling:fields:status", "polling:fields:last_run",
         "polling:fields:status", "polling:fields:error"] from rfl] at hmem
    simp at hmem

/-- C3: aggregating the empty list returns the well-formed empty
aggregate without error. -/
theorem C3_aggregate_empty (now : String) :
    DataProcessor.aggregate_data now []
      = .ok { total_records := 0, data_types := [], summaries := [],
              aggregated_at := now } := rfl

/-- C4 counterexample: on the spec's own 11-record input the aggregator
keeps all 11 summaries; the summaries sequence does not have length 10
and carries no truncation marker. -/
theorem C4_counterexample :
    (DataProcessor.aggregate_data "T" elevenRecords).map
        (fun a => a.summaries.length) = .ok 11 ∧
    (DataProcessor.aggregate_data "T" elevenRecords).map
        (fun a => a.summaries.length) ≠ .ok 10 := by
  refine ⟨rfl, fun h => ?_⟩
  have h2 : (Except.ok 11 : Except String Nat) = .ok 10 := by
    rw [show (Except.ok 11 : Except String Nat)
      = (DataProcessor.aggregate_data "T" elevenRecords).map (fun a => a.summaries.length)
      from rfl]
    exact h
  simp at h2

set_option maxRecDepth 8000 in
/-- C4 as amended: aggregating the 11 records (5 field then 6 crop)
yields counts field 5 and crop 6 and all 11 summaries in input order; the
10-summary cap and the `... and 1 more records` marker appear in the
report content that `_create_summary_content` renders from that
aggregate. -/
theorem C4_aggregate_eleven :
    DataProcessor.aggregate_data "T" elevenRecords
      = .ok { total_records := 11,
              data_types := [(Json.str "field", 5), (Json.str "crop", 6)],
              summaries := [.str "s1", .str "s2", .str "s3", .str "s4", .str "s5",
                            .str "s6", .str "s7", .str "s8", .str "s9", .str "s10",
                            .str "s11"],
              aggregated_at := "T" } ∧
    ReportManager.create_summary_content
        { total_records := 11,
          data_types := [(Json.str "field", 5), (Json.str "crop", 6)],
          summaries := [.str "s1", .str "s2", .str "s3", .str "s4", .str "s5",
                        .str "s6", .str "s7", .str "s8", .str "s9", .str "s10",
                        .str "s11"],
          aggregated_at := "T" }
      = "Data Summary Report\nGenerated: T\n\nTotal Records Processed: 11\n\n"
        ++ "Data Types:\n  - field: 5 records\n  - crop: 6 records\n\n"
        ++ "Record Summaries:\n  1. s1\n  2. s2\n  3. s3\n  4. s4\n  5. s5\n  6. s6\n"
        ++ "  7. s7\n  8. s8\n  9. s9\n  10. s10\n  ... and 1 more records" := by
  exact ⟨rfl, by decide⟩

/-- C5: with `mode=both`, a working renderer and a failing deliverer, the
result still carries the rendered artifact path, is unsuccessful, and
holds exactly one delivery error. -/
theorem C5_render_deliver_independent (env : ReportManager.ReportEnv) (p : String)
    (hr : env.render = .ok p) (hn : env.notifier_available = true)
    (hs : env.send = .ok false ∨ ∃ m, env.send = .error m) :
    (ReportManager.generate_report env "both" true).success = false ∧
    (ReportManager.generate_report env "both" true).pdf_path = some p ∧
    ((ReportManager.generate_report env "both" true).errors = ["Email sending failed"] ∨
     ∃ m, (ReportManager.generate_report env "both" true).errors
        = ["Email sending failed: " ++ m]) := by
  rcases hs with hs | ⟨m, hs⟩
  · refine ⟨?_, ?_, Or.inl ?_⟩ <;>
      simp [ReportManager.generate_report, hr, hn, hs]
  · refine ⟨?_, ?_, Or.inr ⟨m, ?_⟩⟩ <;>
      simp [ReportManager.generate_report, hr, hn, hs]

/-- Witness for C5 with a renderer that returns a path and a notifier
whose send reports failure. -/
theorem C5_witness :
    (⟨.ok "/app/output/r.pdf", true, .ok false⟩ : ReportManager.ReportEnv).render
        = .ok "/app/output/r.pdf" ∧
    ((ReportManager.generate_report ⟨.ok "/app/output/r.pdf", true, .ok false⟩ "both" true).success = false ∧
     (ReportManager.generate_report ⟨.ok "/app/output/r.pdf", true, .ok false⟩ "both" true).pdf_path
        = some "/app/output/r.pdf" ∧
     ((ReportManager.generate_report ⟨.ok "/app/output/r.pdf", true, .ok false⟩ "both" true).errors
        = ["Email sending failed"] ∨
      ∃ m, (ReportManager.generate_report ⟨.ok "/app/output/r.pdf", true, .ok false⟩ "both" true).errors
        = ["Email sending failed: " ++ m])) :=
  ⟨rfl, C5_render_deliver_independent _ "/app/output/r.pdf" rfl rfl (Or.inl rfl)⟩

/-- C6: a successful report result has an empty error list (`success` is
computed as emptiness of the accumulated errors). -/
theorem C6_success_implies_no_errors (env : ReportManager.ReportEnv)
    (fmt : String) (rcp : Bool)
    (h : (ReportManager.generate_report env fmt rcp).success = true) :
    (ReportManager.generate_report env fmt rcp).errors = [] := by
  have he : (ReportManager.generate_report env fmt rcp).success
      = (ReportManager.generate_report env fmt rcp).errors.isEmpty := rfl
  rw [he] at h
  exact List.isEmpty_iff.mp h

/-- Witness for C6 at a pdf-only call whose render succeeds. -/
theorem C6_witness :
    (ReportManager.generate_report ⟨.ok "/app/output/r.pdf", false, .ok false⟩ "pdf" false).success
      = true ∧
    (ReportManager.generate_report ⟨.ok "/app/output/r.pdf", false, .ok false⟩ "pdf" false).errors
      = [] :=
  ⟨rfl, C6_success_implies_no_errors _ "pdf" false rfl⟩

/-- C9: under any unrecognized domain tag, `process_agworld_data` takes
the total generic fallback, wrapping the raw record verbatim under the
`data` field with a field-count summary. -/
theorem C9_generic_fallback (raw : Record) (now d : String)
    (h : d ≠ "field" ∧ d ≠ "crop" ∧ d ≠ "activity" ∧ d ≠ "company"
         ∧ d ≠ "farm" ∧ d ≠ "season") :
    (DataProcessor.process_agworld_data now raw d).1.processed_data
      = [("id", rawGet raw "id"),
         ("data", mkObj raw),
         ("summary", .str ("Generic data with " ++ toString raw.length ++ " fields"))] := by
  obtain ⟨h1, h2, h3, h4, h5, h6⟩ := h
  show (if d = "field" then DataProcessor.process_field_data raw
    else if d = "crop" then DataProcessor.process_crop_data raw
    else if d = "activity" then DataProcessor.process_activity_data raw
    else if d = "company" then DataProcessor.process_company_data raw
    else if d = "farm" then DataProcessor.process_farm_data raw
    else if d = "season" then DataProcessor.process_season_data raw
    else DataProcessor.process_generic_data raw) = _
  rw [if_neg h1, if_neg h2, if_neg h3, if_neg h4, if_neg h5, if_neg h6]
  rfl

/-- Witness for C9 at an unrecognized tag. -/
theorem C9_witness :
    ("mystery" ≠ "field" ∧ "mystery" ≠ "crop" ∧ "mystery" ≠ "activity"
      ∧ "mystery" ≠ "company" ∧ "mystery" ≠ "farm" ∧ "mystery" ≠ "season") ∧
    (DataProcessor.process_agworld_data "T" [("id", Json.num 7)] "mystery").1.processed_data
      = [("id", rawGet [("id", Json.num 7)] "id"),
         ("data", mkObj [("id", Json.num 7)]),
         ("summary", .str ("Generic data with " ++ toString (List.length [("id", Json.num 7)]) ++ " fields"))] :=
  ⟨by decide, C9_generic_fallback [("id", Json.num 7)] "T" "mystery" (by decide)⟩

/-- Dict assignment makes the key readable. -/
theorem rawLookup_minsert (k : String) (v : Json) (l : List (String × Json)) :
    rawLookup k (RedisClient.minsert k v l) = some v := by
  induction l with
  | nil => simp [RedisClient.minsert, rawLookup]
  | cons p tl ih =>
      obtain ⟨k2, v2⟩ := p
      by_cases hk : k2 = k <;> simp [RedisClient.minsert, rawLookup, hk, ih]

/-- One cache call in fallback mode stays in fallback mode. -/
theorem redis_step_fallback (s : RedisClient.RState) (op : RedisClient.ROp)
    (h : s.use_redis = false) : (RedisClient.step s op).use_redis = false := by
  cases op with
  | opSet k v backend => simp [RedisClient.step, RedisClient.rset, h]
  | opGet k backend => simp [RedisClient.step, RedisClient.rget, h]

/-- A whole call sequence in fallback mode stays in fallback mode. -/
theorem redis_runOps_fallback (ops : List RedisClient.ROp) :
    ∀ s : RedisClient.RState, s.use_redis = false →
    (RedisClient.runOps ops s).use_redis = false := by
  induction ops with
  | nil => intro s h; exact h
  | cons op tl ih =>
      intro s h
      exact ih (RedisClient.step s op) (redis_step_fallback s op h)

/-- C7: once the wrapper is in fallback mode it never retries the network
backend: any further call sequence leaves it in fallback mode, `get`
answers purely from the in-memory dict (ignoring the backend and
raising nothing, since the modelled call is total), and a fallback-mode
`set` is immediately readable back. -/
theorem C7_fallback_sticky (s : RedisClient.RState) (h : s.use_redis = false) :
    (∀ ops : List RedisClient.ROp, (RedisClient.runOps ops s).use_redis = false) ∧
    (∀ (k : String) (backend : Except String (Option Json)),
      RedisClient.rget k backend s = (rawLookup k s.memory_cache, s)) ∧
    (∀ (k : String) (v : Json) (bset : Except String Bool)
        (bget : Except String (Option Json)),
      (RedisClient.rget k bget ((RedisClient.rset k v bset s).2)).1 = some v) := by
  refine ⟨fun ops => redis_runOps_fallback ops s h, ?_, ?_⟩
  · intro k backend
    simp [RedisClient.rget, h]
  · intro k v bset bget
    simp [RedisClient.rset, RedisClient.rget, h, rawLookup_minsert]

/-- Witness for C7: a set/get pair against an unreachable backend in
fallback mode, and a direct fallback read. -/
theorem C7_witness :
    (RedisClient.runOps
        [.opSet "x" (.str "v") (.error "down"), .opGet "x" (.error "down")]
        ⟨false, []⟩).use_redis = false ∧
    RedisClient.rget "k" (.error "down") ⟨false, [("k", .str "v")]⟩
      = (rawLookup "k" [("k", .str "v")], ⟨false, [("k", .str "v")]⟩) ∧
    (RedisClient.rget "k" (.error "down")
        ((RedisClient.rset "k" (.str "v") (.error "down") ⟨false, []⟩).2)).1
      = some (.str "v") :=
  ⟨(C7_fallback_sticky ⟨false, []⟩ rfl).1 _,
   (C7_fallback_sticky ⟨false, [("k", .str "v")]⟩ rfl).2.1 _ _,
   (C7_fallback_sticky ⟨false, []⟩ rfl).2.2 _ _ _ _⟩

/-- One request never shrinks the courtesy delay. -/
theorem make_request_delay_mono (s : AgworldAPIClient.ClientState)
    (r : AgworldAPIClient.ApiResp) :
    s.rate_limit_delay ≤ ((AgworldAPIClient.make_request s r).2).rate_limit_delay := by
  cases r with
  | success body => exact Nat.le_refl _
  | httpError status msg =>
      simp only [AgworldAPIClient.make_request]
      split
      · simp; omega
      · exact Nat.le_refl _
  | requestError msg => exact Nat.le_refl _

/-- No request sequence ever shrinks the courtesy delay (it is never
reset). -/
theorem runRequests_delay_mono (rs : List AgworldAPIClient.ApiResp) :
    ∀ s : AgworldAPIClient.ClientState,
    s.rate_limit_delay ≤ (AgworldAPIClient.runRequests rs s).rate_limit_delay := by
  induction rs with
  | nil => intro s; exact Nat.le_refl _
  | cons r tl ih =>
      intro s
      exact Nat.le_trans (make_request_delay_mono s r)
        (ih (AgworldAPIClient.make_request s r).2)

/-- C8 counterexample: an uncached `get_fields` call answered with
HTTP 429 does not raise to its caller; it returns the built-in mock
sample (cached for 300 seconds), with the courtesy delay doubled. -/
theorem C8_counterexample :
    AgworldAPIClient.get_fields ⟨1⟩ none none none
        (.httpError 429 "429 Client Error: Too Many Requests for url")
      = (.ok AgworldAPIClient.mock_field_data, ⟨2⟩,
         [.set "agworld:fields:all:all" AgworldAPIClient.mock_field_data (some 300)]) := rfl

/-- C8 as amended: on HTTP 429 `_make_request` doubles the courtesy
delay and re-raises, and no request sequence ever lowers the delay; but
`get_fields` catches the error and returns the mock dataset instead of
raising to its caller. -/
theorem C8_rate_limit_backoff (s : AgworldAPIClient.ClientState)
    (code : Nat) (m : String) (h : code = 429) :
    (AgworldAPIClient.make_request s (.httpError code m)).1 = .error m ∧
    ((AgworldAPIClient.make_request s (.httpError code m)).2).rate_limit_delay
      = s.rate_limit_delay * 2 ∧
    (∀ (rs : List AgworldAPIClient.ApiResp) (s0 : AgworldAPIClient.ClientState),
      s0.rate_limit_delay ≤ (AgworldAPIClient.runRequests rs s0).rate_limit_delay) ∧
    (∀ s1 : AgworldAPIClient.ClientState,
      AgworldAPIClient.get_fields s1 none none none (.httpError code m)
        = (.ok AgworldAPIClient.mock_field_data, ⟨s1.rate_limit_delay * 2⟩,
           [.set "agworld:fields:all:all" AgworldAPIClient.mock_field_data (some 300)])) := by
  subst h
  exact ⟨rfl, rfl, fun rs s0 => runRequests_delay_mono rs s0, fun s1 => rfl⟩

/-- Witness for C8 at delay 1 and a concrete 429 answer. -/
theorem C8_witness :
    ((429 : Nat) = 429) ∧
    ((AgworldAPIClient.make_request ⟨1⟩ (.httpError 429 "Too Many Requests")).1
        = .error "Too Many Requests" ∧
     ((AgworldAPIClient.make_request ⟨1⟩ (.httpError 429 "Too Many Requests")).2).rate_limit_delay
        = 1 * 2 ∧
     (∀ (rs : List AgworldAPIClient.ApiResp) (s0 : AgworldAPIClient.ClientState),
       s0.rate_limit_delay ≤ (AgworldAPIClient.runRequests rs s0).rate_limit_delay) ∧
     (∀ s1 : AgworldAPIClient.ClientState,
       AgworldAPIClient.get_fields s1 none none none (.httpError 429 "Too Many Requests")
         = (.ok AgworldAPIClient.mock_field_data, ⟨s1.rate_limit_delay * 2⟩,
            [.set "agworld:fields:all:all" AgworldAPIClient.mock_field_data (some 300)]))) :=
  ⟨rfl, C8_rate_limit_backoff ⟨1⟩ 429 "Too Many Requests" rfl⟩

/-- Bumping one bucket adds one to that key's count and nothing
elsewhere. -/
theorem countOf_bump (l : List (Json × Nat)) (dt0 dt : Json) :
    countOf (DataProcessor.bump l dt0) dt
      = countOf l dt + (if dt0 = dt then 1 else 0) := by
  induction l with
  | nil =>
      simp only [DataProcessor.bump, countOf]
      split <;> omega
  | cons p tl ih =>
      obtain ⟨k, c⟩ := p
      by_cases hk : k = dt0
      · subst hk
        simp only [DataProcessor.bump, if_pos rfl, countOf]
        split <;> omega
      · simp only [DataProcessor.bump, if_neg hk, countOf, ih]
        split <;> split <;> omega

/-- Bumping one bucket adds exactly one to the total count. -/
theorem countsSum_bump (l : List (Json × Nat)) (dt0 : Json) :
    countsSum (DataProcessor.bump l dt0) = countsSum l + 1 := by
  induction l with
  | nil => simp [DataProcessor.bump, countsSum]
  | cons p tl ih =>
      obtain ⟨k, c⟩ := p
      by_cases hk : k = dt0 <;> (simp [DataProcessor.bump, hk, countsSum, ih]; omega)

/-- A well-formed record passes one aggregation iteration without a
`TypeError`, leaves the total unchanged and bumps exactly its own
bucket. -/
theorem aggregate_step_wf (agg : DataProcessor.Aggregate) (data : Record)
    (h : wellFormedRec data = true) :
    ∃ agg2, DataProcessor.aggregate_step agg data = .ok agg2 ∧
      agg2.total_records = agg.total_records ∧
      agg2.data_types = DataProcessor.bump agg.data_types (dtOf data) := by
  unfold wellFormedRec at h
  rw [Bool.and_eq_true] at h
  obtain ⟨hh, hrest⟩ := h
  unfold DataProcessor.aggregate_step
  rw [show rawGetD data "data_type" (Json.str "unknown") = dtOf data from rfl]
  rw [if_pos hh]
  split
  · exact ⟨_, rfl, rfl, rfl⟩
  next pd hpd =>
    rw [hpd] at hrest
    have hok : DataProcessor.summary_ok pd = true := hrest
    unfold DataProcessor.summary_ok at hok
    split
    next e heq =>
      rw [heq] at hok
      exact Bool.noConfusion hok
    next heq => exact ⟨_, rfl, rfl, rfl⟩
    next sv heq => exact ⟨_, rfl, rfl, rfl⟩

/-- Folding the aggregation step over well-formed records succeeds and
accounts every record in exactly one bucket. -/
theorem aggregate_fold_wf (recs : List Record) :
    ∀ agg : DataProcessor.Aggregate, (∀ r ∈ recs, wellFormedRec r = true) →
    ∃ agg2, List.foldlM DataProcessor.aggregate_step agg recs = .ok agg2 ∧
      agg2.total_records = agg.total_records ∧
      countsSum agg2.data_types = countsSum agg.data_types + recs.length ∧
      ∀ dt, countOf agg2.data_types dt
        = countOf agg.data_types dt + recs.countP (fun r => dtOf r == dt) := by
  induction recs with
  | nil =>
      intro agg h
      exact ⟨agg, rfl, rfl, by simp, by simp⟩
  | cons r rs ih =>
      intro agg h
      obtain ⟨agg1, hstep, ht1, hdt1⟩ := aggregate_step_wf agg r (h r (by simp))
      obtain ⟨agg2, hfold, ht2, hsum2, hcnt2⟩ :=
        ih agg1 (fun x hx => h x (by simp [hx]))
      refine ⟨agg2, ?_, ?_, ?_, ?_⟩
      · rw [List.foldlM_cons, hstep]
        exact hfold
      · rw [ht2, ht1]
      · rw [hsum2, hdt1, countsSum_bump]
        simp
        omega
      · intro dt
        rw [hcnt2 dt, hdt1, countOf_bump, List.countP_cons]
        by_cases hdt : dtOf r = dt <;> (simp [hdt]; try omega)

/-- C10 counterexample: a record dict whose `processed_data` value is a
plain number makes the aggregation loop raise a `TypeError` at the
`"summary" in ...` test, so no aggregate is returned at all. -/
theorem C10_counterexample :
    DataProcessor.aggregate_data "T" [[("processed_data", Json.num 5)]]
      = .error "TypeError: argument of type \x27int\x27 is not iterable" := rfl

/-- C10 as amended: for input records that survive the loop's dynamic
membership tests (hashable `data_type` value, `processed_data` value
either absent or a container whose lookup does not blow up), the
aggregate exists, `total_records` is the input length, the bucket counts
sum to it, each bucket holds exactly the records with its tag, and a
record without a `data_type` key lands in the `unknown` bucket. -/
theorem C10_totals_conserved (now : String) (recs : List Record)
    (h : ∀ r ∈ recs, wellFormedRec r = true) :
    ∃ agg, DataProcessor.aggregate_data now recs = .ok agg ∧
      agg.total_records = recs.length ∧
      countsSum agg.data_types = recs.length ∧
      (∀ dt, countOf agg.data_types dt = recs.countP (fun r => dtOf r == dt)) ∧
      (∀ r : Record, rawLookup "data_type" r = none → dtOf r = .str "unknown") := by
  obtain ⟨agg2, hf, ht, hs, hc⟩ := aggregate_fold_wf recs
    { total_records := recs.length, data_types := [], summaries := [],
      aggregated_at := now } h
  refine ⟨agg2, hf, ht, ?_, ?_, ?_⟩
  · rw [hs]; simp [countsSum]
  · intro dt; rw [hc dt]; simp [countOf]
  · intro r hr; simp [dtOf, rawGetD, hr]

/-- Witness for C10 on two records, one tagged and one without a tag. -/
theorem C10_witness :
    (∀ r ∈ ([[("data_type", Json.str "field")], [("id", Json.num 1)]] : List Record),
      wellFormedRec r = true) ∧
    (∃ agg, DataProcessor.aggregate_data "T"
        [[("data_type", Json.str "field")], [("id", Json.num 1)]] = .ok agg ∧
      agg.total_records = ([[("data_type", Json.str "field")], [("id", Json.num 1)]] : List Record).length ∧
      countsSum agg.data_types = ([[("data_type", Json.str "field")], [("id", Json.num 1)]] : List Record).length ∧
      (∀ dt, countOf agg.data_types dt
        = ([[("data_type", Json.str "field")], [("id", Json.num 1)]] : List Record).countP
            (fun r => dtOf r == dt)) ∧
      (∀ r : Record, rawLookup "data_type" r = none → dtOf r = .str "unknown")) :=
  ⟨by decide,
   C10_totals_conserved "T" [[("data_type", Json.str "field")], [("id", Json.num 1)]] (by decide)⟩
